import Mathlib

/-!
Verification development for the Express backend in src/index.js: a session
gateway in front of the Google Drive / Sheets APIs.  Each handler is embedded
as a pure Lean function over an explicit session state; remote services
(drive listing, spreadsheet values, userinfo) are passed in as oracle
functions, fallible ones returning Except.  HTTP responses are modelled by a
status/payload sum, and every handler additionally reports how many remote
calls it issued, so that claims about the number (or absence) of remote calls
can be stated.
-/

namespace GSheets

/-- The single-quote character (code point 39), used both by the drive query
escaping and by the tab-title range escaping in src/index.js. -/
def squote : Char := Char.ofNat 39

/-- One-character string holding a single quote. -/
def squoteStr : String := String.mk [squote]

/-- JavaScript `a || b` on string-or-undefined values: `undefined` and the
empty string are falsy. -/
def jsOrStr : Option String → Option String → Option String
  | some s, y => if s = "" then y else some s
  | none, y => y

/-- JavaScript truthiness of a string-or-undefined value. -/
def truthyOptStr : Option String → Bool
  | some s => s != ""
  | none => false

/-- Process environment variables read by src/index.js (each may be unset). -/
structure Env where
  GOOGLE_CLIENT_ID : Option String
  GOOGLE_CLIENT_SECRET : Option String
  GOOGLE_REDIRECT_URI : Option String
deriving DecidableEq

/-- Per-session OAuth client override stored at `req.session.clientConfig`.
Fields are optional because a JavaScript object may lack any of them; the
POST /auth/client-config handler always stores all three. -/
structure ClientConfig where
  clientId : Option String
  clientSecret : Option String
  redirectUri : Option String
deriving DecidableEq

/-- Session state: `req.session.tokens` (opaque token bundle, modelled as a
string) and `req.session.clientConfig`. -/
structure Session where
  tokens : Option String
  clientConfig : Option ClientConfig
deriving DecidableEq

/-- Configuration of the OAuth2 client built by `getOAuthClient` in
src/index.js (lines 30-36). -/
structure OAuth2Client where
  clientId : Option String
  clientSecret : Option String
  redirectUri : Option String
deriving DecidableEq

/-- Embedding of `getOAuthClient` (src/index.js lines 30-36): each field is
`cfg?.field || process.env.DEFAULT`, i.e. a per-field JavaScript `||`
fallback from the session override to the environment. -/
def getOAuthClient (env : Env) (sess : Session) : OAuth2Client :=
  let cfg := sess.clientConfig
  { clientId := jsOrStr (cfg.bind (fun c => c.clientId)) env.GOOGLE_CLIENT_ID
    clientSecret := jsOrStr (cfg.bind (fun c => c.clientSecret)) env.GOOGLE_CLIENT_SECRET
    redirectUri := jsOrStr (cfg.bind (fun c => c.redirectUri)) env.GOOGLE_REDIRECT_URI }

/-- Spec-side rendering of the fallback contract of section 4.2 of the spec:
a field that is set (to a truthy value) in the session configuration is taken
from there, an unset field falls back to the environment default; written
independently of `jsOrStr` for comparison. -/
def specFieldFallback (sessVal envVal : Option String) : Option String :=
  if truthyOptStr sessVal then sessVal else envVal

/-- Outcome of a Joi `schema.validate` call: a validated value or the
validation error message. -/
inductive JoiResult (α : Type) where
  | ok (v : α)
  | err (msg : String)
deriving DecidableEq

/-- The redirect-URI fallback `process.env.GOOGLE_REDIRECT_URI` or else `
http://localhost:4000/auth/callback` used both as the Joi default and in
the POST /auth/client-config handler (src/index.js lines 100 and 106). -/
def defaultRedirect (env : Env) : String :=
  match env.GOOGLE_REDIRECT_URI with
  | some s => if s = "" then "http://localhost:4000/auth/callback" else s
  | none => "http://localhost:4000/auth/callback"

/-- Request body of POST /auth/client-config after JSON parsing; unknown
fields are stripped by Joi, so only the three schema keys matter. -/
structure ClientConfigBody where
  clientId : Option String
  clientSecret : Option String
  redirectUri : Option String
deriving DecidableEq

/-- Validated POST /auth/client-config body. -/
structure ValidClientConfig where
  clientId : String
  clientSecret : String
  redirectUri : String
deriving DecidableEq

/-- Embedding of the Joi schema of src/index.js lines 93-102: `clientId` and
`clientSecret` are required strings of length at least 10, `redirectUri` is
an optional URI that may be empty and defaults to `defaultRedirect`.  Keys
are validated in schema order and the first failure aborts (Joi abortEarly).
URI syntax checking is Joi library code, abstracted as the `isUri`
parameter. -/
def validateClientConfig (isUri : String → Bool) (env : Env)
    (body : ClientConfigBody) : JoiResult ValidClientConfig :=
  match body.clientId with
  | none => .err "clientId is required"
  | some i =>
    if i = "" then .err "clientId is not allowed to be empty"
    else if i.length < 10 then .err "clientId length must be at least 10 characters long"
    else
      match body.clientSecret with
      | none => .err "clientSecret is required"
      | some s =>
        if s = "" then .err "clientSecret is not allowed to be empty"
        else if s.length < 10 then .err "clientSecret length must be at least 10 characters long"
        else
          match body.redirectUri with
          | none => .ok ⟨i, s, defaultRedirect env⟩
          | some r =>
            if r = "" then .ok ⟨i, s, ""⟩
            else if isUri r then .ok ⟨i, s, r⟩
            else .err "redirectUri must be a valid uri"

/-- HTTP response of a JSON handler: success payload, or an error status with
the `error` message of the JSON error envelope. -/
inductive Resp (α : Type) where
  | ok (v : α)
  | err (status : Nat) (error : String)
deriving DecidableEq

/-- Embedding of the POST /auth/client-config handler (src/index.js lines
92-109): on validation failure respond 400 with the message and leave the
session alone; on success store the validated credentials (substituting the
environment fallback for an empty redirect URI) and respond with the stored
redirect URI (the body `\x7bok: true, redirectUri\x7d`). -/
def postClientConfig (isUri : String → Bool) (env : Env) (sess : Session)
    (body : ClientConfigBody) : Session × Resp String :=
  match validateClientConfig isUri env body with
  | .err m => (sess, .err 400 m)
  | .ok v =>
    let redirectUri := if v.redirectUri ≠ "" then v.redirectUri else defaultRedirect env
    ({ sess with clientConfig := some ⟨some v.clientId, some v.clientSecret, some redirectUri⟩ },
     .ok redirectUri)

/-- The `config` object of a GET /auth/client-config response: it carries
only the redirect URI (src/index.js line 89). -/
structure ConfigView where
  redirectUri : Option String
deriving DecidableEq

/-- Response body of GET /auth/client-config. -/
structure GetConfigResp where
  configured : Bool
  config : Option ConfigView
deriving DecidableEq

/-- Embedding of the GET /auth/client-config handler (src/index.js lines
87-90): `configured` is the truthiness of both stored credentials, and
`config` echoes only the redirect URI. -/
def getClientConfig (sess : Session) : GetConfigResp :=
  match sess.clientConfig with
  | none => ⟨false, none⟩
  | some cc =>
    let present := truthyOptStr cc.clientId && truthyOptStr cc.clientSecret
    ⟨present, if present then some ⟨cc.redirectUri⟩ else none⟩

/-- All string values occurring anywhere in a GET /auth/client-config
response body, used to state that credentials are never echoed back. -/
def getConfigRespStrings (r : GetConfigResp) : List String :=
  match r.config with
  | none => []
  | some cv =>
    match cv.redirectUri with
    | none => []
    | some u => [u]

/-- One file entry of a drive listing response.  Owners are modelled by their
optional `displayName` field, the only one the handler reads. -/
structure DriveFile where
  id : String
  name : String
  owners : Option (List (Option String))
  modifiedTime : String
deriving DecidableEq

/-- Payload of one `drive.files.list` call: optional file array and optional
next-page token. -/
structure DriveListResp where
  files : Option (List DriveFile)
  nextPageToken : Option String
deriving DecidableEq

/-- The drive listing service, abstracted as a function from the page token
sent (or none) to the response. -/
def DriveList : Type := Option String → DriveListResp

/-- Embedding of the page-token loop of src/index.js lines 158-163: starting
from token `tok`, run at most `n` iterations; each iteration issues one
listing call, replaces the token by the `nextPageToken` of the response, and
breaks when that token is falsy (absent or empty).  Returns the token left in
`pageToken` after the loop together with the number of listing calls
issued. -/
def paginateLoop (list : DriveList) : Nat → Option String → Option String × Nat
  | 0, tok => (tok, 0)
  | n + 1, tok =>
    match (list tok).nextPageToken with
    | none => (none, 1)
    | some t =>
      if t = "" then (some "", 1)
      else
        let p := paginateLoop list n (some t)
        (p.1, p.2 + 1)

/-- Token reached after following the next-page tokens of the remote listing `k`
times from the start (no token). -/
def chain (list : DriveList) : Nat → Option String
  | 0 => none
  | k + 1 => (list (chain list k)).nextPageToken

/-- One item of the GET /api/sheets response. -/
structure SheetItem where
  id : String
  name : String
  owners : List String
  modifiedTime : String
  preview : List (List String)
deriving DecidableEq

/-- Response body of GET /api/sheets. -/
structure SheetsPayload where
  items : List SheetItem
  total : Nat
deriving DecidableEq

/-- The spreadsheet-values service used for per-file previews
(`sheets.spreadsheets.values.get` on range A1:E3): spreadsheet id to either
failure or a response whose `values` grid may be absent. -/
def ValuesGet : Type := String → Except Unit (Option (List (List String)))

/-- Embedding of the per-file item construction of src/index.js lines
168-183: owners keep only truthy display names, and a failed or empty
preview fetch degrades to the empty grid for that file only. -/
def mkItem (f : DriveFile) (pv : Except Unit (Option (List (List String)))) : SheetItem :=
  { id := f.id
    name := f.name
    owners := (f.owners.getD []).filterMap
      (fun o => o.bind (fun s => if s = "" then none else some s))
    modifiedTime := f.modifiedTime
    preview :=
      match pv with
      | .ok v => v.getD []
      | .error _ => [] }

/-- Query parameters of GET /api/sheets as they reach Joi, already coerced to
numbers where the number conversion of Joi would succeed. -/
structure SheetsQuery where
  page : Option Int
  pageSize : Option Int
  query : Option String
deriving DecidableEq

/-- Validated GET /api/sheets query parameters. -/
structure ValidSheetsQuery where
  page : Nat
  pageSize : Nat
  query : String
deriving DecidableEq

/-- Embedding of the Joi schema of src/index.js lines 141-145: `page` is an
integer of at least 1 defaulting to 1, `pageSize` an integer between 1 and 50
defaulting to 12, `query` a string allowed to be empty defaulting to empty. -/
def validateSheetsQuery (q : SheetsQuery) : JoiResult ValidSheetsQuery :=
  match q.page with
  | some p =>
    if p < 1 then .err "page must be greater than or equal to 1"
    else
      match q.pageSize with
      | some s =>
        if s < 1 then .err "pageSize must be greater than or equal to 1"
        else if 50 < s then .err "pageSize must be less than or equal to 50"
        else .ok ⟨p.toNat, s.toNat, q.query.getD ""⟩
      | none => .ok ⟨p.toNat, 12, q.query.getD ""⟩
  | none =>
    match q.pageSize with
    | some s =>
      if s < 1 then .err "pageSize must be greater than or equal to 1"
      else if 50 < s then .err "pageSize must be less than or equal to 50"
      else .ok ⟨1, s.toNat, q.query.getD ""⟩
    | none => .ok ⟨1, 12, q.query.getD ""⟩

/-- Remote calls issued by one GET /api/sheets request: preliminary listing
calls whose payload is discarded, the final listing call, and per-file
preview calls. -/
structure SheetsTrace where
  prelimListCalls : Nat
  finalListCalls : Nat
  previewCalls : Nat
deriving DecidableEq

/-- Files of the page served by GET /api/sheets: run the token loop for
`page - 1` steps from no token, then issue the final listing call with the
token it left behind (src/index.js lines 158-165). -/
def sheetsFiles (list : DriveList) (v : ValidSheetsQuery) : List DriveFile :=
  (list (paginateLoop list (v.page - 1) none).1).files.getD []

/-- Authenticated, validated part of the GET /api/sheets handler
(src/index.js lines 150-187). -/
def apiSheetsAuthed (list : DriveList) (vg : ValuesGet)
    (v : ValidSheetsQuery) : Resp SheetsPayload × SheetsTrace :=
  let files := sheetsFiles list v
  let items := files.map (fun f => mkItem f (vg f.id))
  (.ok ⟨items, items.length⟩,
   ⟨(paginateLoop list (v.page - 1) none).2, 1, files.length⟩)

/-- Embedding of the GET /api/sheets route (src/index.js lines 140-192),
`ensureAuthed` included: 401 without a token set, 400 on validation failure,
both without any remote call. -/
def apiSheets (list : DriveList) (vg : ValuesGet) (sess : Session)
    (q : SheetsQuery) : Resp SheetsPayload × SheetsTrace :=
  match sess.tokens with
  | none => (.err 401 "Unauthorized", ⟨0, 0, 0⟩)
  | some _ =>
    match validateSheetsQuery q with
    | .err m => (.err 400 m, ⟨0, 0, 0⟩)
    | .ok v => apiSheetsAuthed list vg v

/-- Userinfo data returned by the identity provider. -/
structure MeInfo where
  id : Option String
  name : Option String
  email : Option String
  picture : Option String
deriving DecidableEq

/-- Response body of GET /api/me. -/
structure MeBody where
  id : Option String
  name : Option String
  email : Option String
  photo : Option String
deriving DecidableEq

/-- Embedding of the GET /api/me route (src/index.js lines 124-138) with its
remote-call count: the userinfo endpoint is called exactly once when a token
set is present, never otherwise. -/
def apiMe (userinfo : Except Unit MeInfo) (sess : Session) : Resp MeBody × Nat :=
  match sess.tokens with
  | none => (.err 401 "Unauthorized", 0)
  | some _ =>
    match userinfo with
    | .ok d => (.ok ⟨d.id, d.name, d.email, d.picture⟩, 1)
    | .error _ => (.err 500 "Failed to fetch user info", 1)

/-- Embedding of the POST /api/sheets/:id/refresh route (src/index.js lines
194-197): a no-op returning `\x7bok: true\x7d`, issuing no remote call. -/
def apiRefresh (sess : Session) : Resp Bool × Nat :=
  match sess.tokens with
  | none => (.err 401 "Unauthorized", 0)
  | some _ => (.ok true, 0)

/-- Properties of one tab of a spreadsheet, as selected by the metadata
fetch of src/index.js lines 206-209. -/
structure SheetProps where
  sheetId : Int
  title : String
  index : Int
deriving DecidableEq

/-- One entry of `meta.data.sheets`; its `properties` object may be absent
(the handler filters such entries out). -/
structure MetaSheet where
  properties : Option SheetProps
deriving DecidableEq

/-- Spreadsheet metadata response; the `sheets` array may be absent. -/
structure TabsMeta where
  sheets : Option (List MetaSheet)
deriving DecidableEq

/-- One `valueRanges` entry of a values batchGet response; its `values` grid
may be absent. -/
structure ValueRange where
  values : Option (List (List String))
deriving DecidableEq

/-- Payload of a values batchGet call; the `valueRanges` array may be
absent. -/
structure BatchResp where
  valueRanges : Option (List ValueRange)
deriving DecidableEq

/-- Replacement of the global regex of src/index.js line 215: every single
quote of the title is doubled, scanning left to right. -/
def doubleQuoteChars : List Char → List Char
  | [] => []
  | c :: cs =>
    if c = squote then squote :: squote :: doubleQuoteChars cs
    else c :: doubleQuoteChars cs

/-- String-level wrapper of `doubleQuoteChars`, the model of
`String(p.title).replace` with the global single-quote regex and a doubled
quote as replacement. -/
def jsReplaceQuotesDouble (s : String) : String := ⟨doubleQuoteChars s.data⟩

/-- Spec-side rendering of the escaping sentence of the spec: each single
quote of the title becomes two, every other character is kept; written with
List.flatMap, independently of the scanning recursion above. -/
def doubleQuotesSpec (s : String) : String :=
  ⟨s.data.flatMap (fun c => if c = squote then [squote, squote] else [c])⟩

/-- Range expression built for one tab title (src/index.js line 215): the
escaped title wrapped in single quotes, suffixed with !A1:E3. -/
def buildRange (title : String) : String :=
  squoteStr ++ jsReplaceQuotesDouble title ++ squoteStr ++ "!A1:E3"

/-- One item of the GET /api/sheets/:id/tabs response. -/
structure TabItem where
  title : String
  gid : Int
  preview : List (List String)
deriving DecidableEq

/-- Response body of GET /api/sheets/:id/tabs. -/
structure TabsPayload where
  items : List TabItem
deriving DecidableEq

/-- Remote calls issued by one GET /api/sheets/:id/tabs request. -/
structure TabsTrace where
  metaCalls : Nat
  batchCalls : Nat
deriving DecidableEq

/-- Embedding of the GET /api/sheets/:id/tabs route (src/index.js lines
200-235): after the metadata fetch, a spreadsheet with zero usable tab
property sets answers with an empty item list and no batchGet call;
otherwise one batchGet over all ranges is issued, a failed or absent batch
degrading every preview to the empty grid. -/
def apiTabs (metaResult : Except Unit TabsMeta)
    (batchGet : List String → Except Unit BatchResp)
    (sess : Session) : Resp TabsPayload × TabsTrace :=
  match sess.tokens with
  | none => (.err 401 "Unauthorized", ⟨0, 0⟩)
  | some _ =>
    match metaResult with
    | .error _ => (.err 500 "Failed to fetch inner sheets", ⟨1, 0⟩)
    | .ok meta =>
      let sheetProps := (meta.sheets.getD []).filterMap (fun s => s.properties)
      if sheetProps.length = 0 then (.ok ⟨[]⟩, ⟨1, 0⟩)
      else
        let ranges := sheetProps.map (fun p => buildRange p.title)
        let valuesByIndex :=
          match batchGet ranges with
          | .ok b => b.valueRanges.getD []
          | .error _ => []
        let items := sheetProps.enum.map
          (fun e => TabItem.mk e.2.title e.2.sheetId
            (((valuesByIndex.get? e.1).bind (fun vr => vr.values)).getD []))
        (.ok ⟨items⟩, ⟨1, 1⟩)

/-- Session-mutating surface of the application, one constructor per route,
carrying the remote outcomes that the session effect of the route depends on. -/
inductive Op where
  | login
  | callback (code : Option String) (exchange : Except Unit String)
  | logout
  | getConfig
  | postConfig (body : ClientConfigBody)
  | me
  | sheetsList (q : SheetsQuery)
  | refresh
  | tabs

/-- Session state after one request, per route: only the OAuth callback
(token store), logout (session destruction) and POST /auth/client-config
touch the session; every other handler leaves it unchanged. -/
def applyOp (isUri : String → Bool) (env : Env) (sess : Session) : Op → Session
  | .login => sess
  | .callback code exch =>
    match code with
    | none => sess
    | some _ =>
      match exch with
      | .ok t => { sess with tokens := some t }
      | .error _ => sess
  | .logout => ⟨none, none⟩
  | .getConfig => sess
  | .postConfig body => (postClientConfig isUri env sess body).1
  | .me => sess
  | .sheetsList _ => sess
  | .refresh => sess
  | .tabs => sess

/-- Invariant of claim C10 on the stored client configuration: whenever
present, both credentials are strings of length at least 10 and the redirect
URI is a non-empty string. -/
def configInv : Option ClientConfig → Prop
  | none => True
  | some cc =>
    (∃ i, cc.clientId = some i ∧ 10 ≤ i.length) ∧
    (∃ s, cc.clientSecret = some s ∧ 10 ≤ s.length) ∧
    (∃ r, cc.redirectUri = some r ∧ r ≠ "")

/-! Concrete fixtures used by witnesses and counterexamples. -/

/-- Sample drive file on the first listing page. -/
def fileA : DriveFile := ⟨"idA", "Alpha", none, "2026-01-01T00:00:00Z"⟩

/-- Sample drive file on the second listing page. -/
def fileB : DriveFile := ⟨"idB", "Beta", none, "2026-01-02T00:00:00Z"⟩

/-- Third sample drive file. -/
def fileC : DriveFile := ⟨"idC", "Gamma", none, "2026-01-03T00:00:00Z"⟩

/-- Two-page drive listing: the first page carries the token of the second,
the second page carries none. -/
def listEx : DriveList := fun tok =>
  match tok with
  | none => ⟨some [fileA], some "tok1"⟩
  | some t => if t = "tok1" then ⟨some [fileB], none⟩ else ⟨some [], none⟩

/-- Single-page drive listing holding three files. -/
def listEx3 : DriveList := fun _ => ⟨some [fileA, fileB, fileC], none⟩

/-- Values service whose responses carry no grid. -/
def vgNone : ValuesGet := fun _ => .ok none

/-- Values service failing on the middle file only. -/
def vgEx3 : ValuesGet := fun id =>
  if id = "idB" then .error () else .ok (some [["x", "y"]])

/-- Session holding a token set and no client configuration. -/
def sessEx : Session := ⟨some "tkn", none⟩

/-- Session with neither token set nor client configuration. -/
def sessAnon : Session := ⟨none, none⟩

/-- Query asking for page 1 with page size 5. -/
def qPage1 : SheetsQuery := ⟨some 1, some 5, none⟩

/-- Query asking for page 2 with page size 5. -/
def qPage2 : SheetsQuery := ⟨some 2, some 5, none⟩

/-- Query asking for page 3 with page size 5. -/
def qPage3 : SheetsQuery := ⟨some 3, some 5, none⟩

/-- Sample environment configuration. -/
def envEx : Env :=
  ⟨some "env-client-id", some "env-client-secret", some "http://localhost:4000/auth/callback"⟩

/-- URI check accepting everything (the Joi library predicate is abstract). -/
def isUriEx : String → Bool := fun _ => true

/-- Valid client-config body without an explicit redirect URI. -/
def bodyEx : ClientConfigBody := ⟨some "client-id-123", some "client-secret-123", none⟩

/-- Client-config body whose secret is shorter than 10 characters. -/
def bodyShortSecret : ClientConfigBody := ⟨some "client-id-123", some "short", none⟩

/-- Session state produced by posting `bodyEx` to a fresh session under
`envEx`. -/
def sessStored : Session :=
  ⟨none, some ⟨some "client-id-123", some "client-secret-123",
    some "http://localhost:4000/auth/callback"⟩⟩

/-- Metadata of a spreadsheet with zero tabs. -/
def metaZero : TabsMeta := ⟨some []⟩

/-- Batch values service that always fails. -/
def batchFail : List String → Except Unit BatchResp := fun _ => .error ()

end GSheets

namespace GSheets

/-! Helper lemmas. -/

/-- Stepping the token chain once issues one listing call at the current
token. -/
theorem chain_succ (list : DriveList) (k : Nat) :
    chain list (k + 1) = (list (chain list k)).nextPageToken := rfl

/-- When the first `n` next-page tokens are all truthy, the token loop never
breaks: it issues exactly `n` listing calls and ends on the n-th chained
token. -/
theorem paginateLoop_no_break (list : DriveList) :
    ∀ (n k : Nat),
      (∀ j, k < j → j ≤ k + n → ∃ t, chain list j = some t ∧ t ≠ "") →
      paginateLoop list n (chain list k) = (chain list (k + n), n) := by
  intro n
  induction n with
  | zero => intro k _; rfl
  | succ n ih =>
    intro k h
    obtain ⟨t, ht, hne⟩ := h (k + 1) (by omega) (by omega)
    have hs : (list (chain list k)).nextPageToken = some t := ht
    simp only [paginateLoop, hs, hne, if_neg, ite_false]
    have hrec := ih (k + 1) (fun j hj1 hj2 => h j (by omega) (by omega))
    rw [ht] at hrec
    rw [hrec]
    have : k + 1 + n = k + (n + 1) := by omega
    rw [this]

/-- When the chain dies at step `j ≤ n` (the j-th next-page token is absent),
the token loop breaks there: it issues exactly `j` listing calls and leaves
no token behind. -/
theorem paginateLoop_breaks (list : DriveList) :
    ∀ (n j k : Nat), 1 ≤ j → j ≤ n →
      (∀ i, k < i → i < k + j → ∃ t, chain list i = some t ∧ t ≠ "") →
      chain list (k + j) = none →
      paginateLoop list n (chain list k) = (none, j) := by
  intro n
  induction n with
  | zero => intro j k h1 h2 _ _; omega
  | succ n ih =>
    intro j k h1 h2 hpre hend
    by_cases hj : j = 1
    · subst hj
      have hs : (list (chain list k)).nextPageToken = none := hend
      simp only [paginateLoop, hs]
    · have hj2 : 2 ≤ j := by omega
      obtain ⟨t, ht, hne⟩ := hpre (k + 1) (by omega) (by omega)
      have hs : (list (chain list k)).nextPageToken = some t := ht
      simp only [paginateLoop, hs, hne, if_neg, ite_false]
      have hrec := ih (j - 1) (k + 1) (by omega) (by omega)
        (fun i hi1 hi2 => hpre i (by omega) (by omega))
        (by
          have : k + 1 + (j - 1) = k + j := by omega
          rw [this]; exact hend)
      rw [ht] at hrec
      rw [hrec]
      have : j - 1 + 1 = j := by omega
      rw [this]

/-- With a token set and validated query parameters, the GET /api/sheets
route runs its authenticated body. -/
theorem apiSheets_reduce (list : DriveList) (vg : ValuesGet) (sess : Session)
    (q : SheetsQuery) (tk : String) (v : ValidSheetsQuery)
    (htok : sess.tokens = some tk) (hval : validateSheetsQuery q = .ok v) :
    apiSheets list vg sess q = apiSheetsAuthed list vg v := by
  obtain ⟨tks, cc⟩ := sess
  cases tks with
  | none => exact Option.noConfusion htok
  | some t => simp only [apiSheets, hval]

/-- A validated client-config body has both credentials of length at least
10. -/
theorem validateClientConfig_ok_len (isUri : String → Bool) (env : Env)
    (body : ClientConfigBody) (v : ValidClientConfig)
    (h : validateClientConfig isUri env body = .ok v) :
    10 ≤ v.clientId.length ∧ 10 ≤ v.clientSecret.length := by
  unfold validateClientConfig at h
  split at h
  · cases h
  · split_ifs at h with h1 h2
    split at h
    · cases h
    · split_ifs at h with h3 h4
      split at h
      · cases h
        refine ⟨?_, ?_⟩ <;> simp <;> omega
      · split_ifs at h with h5 h6 <;> cases h <;> (refine ⟨?_, ?_⟩ <;> simp <;> omega)

/-- The redirect-URI fallback is never the empty string. -/
theorem defaultRedirect_ne_empty (env : Env) : defaultRedirect env ≠ "" := by
  unfold defaultRedirect
  rcases env.GOOGLE_REDIRECT_URI with _ | s
  · decide
  · by_cases h : s = ""
    · simp [h]
    · simp [h]

/-! Claim theorems. -/

/-- Claim C2: on any session whose token set is absent, each of the four
authenticated routes answers 401 with the error message Unauthorized and
issues no remote call, whatever the remote services would answer. -/
theorem unauthenticated_routes_401 (userinfo : Except Unit MeInfo)
    (list : DriveList) (vg : ValuesGet) (metaResult : Except Unit TabsMeta)
    (batchGet : List String → Except Unit BatchResp)
    (sess : Session) (q : SheetsQuery)
    (h : sess.tokens = none) :
    apiMe userinfo sess = (.err 401 "Unauthorized", 0) ∧
    apiSheets list vg sess q = (.err 401 "Unauthorized", ⟨0, 0, 0⟩) ∧
    apiRefresh sess = (.err 401 "Unauthorized", 0) ∧
    apiTabs metaResult batchGet sess = (.err 401 "Unauthorized", ⟨0, 0⟩) := by
  obtain ⟨tks, cc⟩ := sess
  cases tks with
  | none => exact ⟨rfl, rfl, rfl, rfl⟩
  | some t => exact Option.noConfusion h

/-- Witness for claim C2 on a concrete unauthenticated session. -/
theorem unauthenticated_routes_401_witness :
    apiMe (.error ()) sessAnon = (.err 401 "Unauthorized", 0) ∧
    apiSheets listEx vgNone sessAnon qPage3 = (.err 401 "Unauthorized", ⟨0, 0, 0⟩) ∧
    apiRefresh sessAnon = (.err 401 "Unauthorized", 0) ∧
    apiTabs (.error ()) batchFail sessAnon = (.err 401 "Unauthorized", ⟨0, 0⟩) :=
  unauthenticated_routes_401 (.error ()) listEx vgNone (.error ()) batchFail sessAnon qPage3 rfl

/-- Claim C3: with a token set, a validated page number and a token stream
deep enough (the first page-1 next-page tokens all truthy), the GET
/api/sheets handler issues exactly page-1 preliminary listing calls before
the single final listing call. -/
theorem sheets_prelim_call_count (list : DriveList) (vg : ValuesGet)
    (sess : Session) (q : SheetsQuery) (tk : String) (v : ValidSheetsQuery)
    (htok : sess.tokens = some tk) (hval : validateSheetsQuery q = .ok v)
    (hdeep : ∀ k, 1 ≤ k → k ≤ v.page - 1 → ∃ t, chain list k = some t ∧ t ≠ "") :
    (apiSheets list vg sess q).2.prelimListCalls = v.page - 1 ∧
    (apiSheets list vg sess q).2.finalListCalls = 1 := by
  rw [apiSheets_reduce list vg sess q tk v htok hval]
  have hloop := paginateLoop_no_break list (v.page - 1) 0
    (fun j hj1 hj2 => hdeep j hj1 (by omega))
  have hloop' : paginateLoop list (v.page - 1) none = (chain list (v.page - 1), v.page - 1) := by
    have h0 : (0 : Nat) + (v.page - 1) = v.page - 1 := by omega
    rw [h0] at hloop
    exact hloop
  constructor
  · show (paginateLoop list (v.page - 1) none).2 = v.page - 1
    rw [hloop']
  · rfl

/-- Witness for claim C3: requesting page 2 of a two-page stream issues
exactly one preliminary listing call. -/
theorem sheets_prelim_call_count_witness :
    (apiSheets listEx vgNone sessEx qPage2).2.prelimListCalls = 1 ∧
    (apiSheets listEx vgNone sessEx qPage2).2.finalListCalls = 1 :=
  sheets_prelim_call_count listEx vgNone sessEx qPage2 "tkn" ⟨2, 5, ""⟩ rfl rfl
    (fun k h1 h2 => by
      have h2' : k ≤ 1 := h2
      have hk : k = 1 := by omega
      subst hk
      exact ⟨"tok1", rfl, by decide⟩)

/-- Counterexample to claim C1 as stated: with a two-page stream and target
page 3, the token stream exhausts at the second preliminary call, the last
available page holds fileB, yet the response holds the first page (fileA),
not the last available one. -/
theorem sheets_exhaust_not_last_page_cex :
    chain listEx 1 = some "tok1" ∧
    chain listEx 2 = none ∧
    (listEx (chain listEx 1)).files = some [fileB] ∧
    (apiSheets listEx vgNone sessEx qPage3).1 ≠
      .ok ⟨((listEx (chain listEx 1)).files.getD []).map (fun f => mkItem f (vgNone f.id)),
           (((listEx (chain listEx 1)).files.getD []).map (fun f => mkItem f (vgNone f.id))).length⟩ ∧
    (apiSheets listEx vgNone sessEx qPage3).1 =
      .ok ⟨((listEx none).files.getD []).map (fun f => mkItem f (vgNone f.id)), 1⟩ := by
  refine ⟨rfl, by decide, rfl, by decide, by decide⟩

/-- Claim C1 as amended: when the token stream exhausts before the target
page (some preliminary call returns no next-page token), the loop leaves no
token behind, so the final listing call re-fetches the first page and the
response is the first page of results. -/
theorem sheets_exhaust_returns_first_page (list : DriveList) (vg : ValuesGet)
    (sess : Session) (q : SheetsQuery) (tk : String) (v : ValidSheetsQuery) (j : Nat)
    (htok : sess.tokens = some tk) (hval : validateSheetsQuery q = .ok v)
    (hj1 : 1 ≤ j) (hjp : j ≤ v.page - 1)
    (hpre : ∀ i, 1 ≤ i → i < j → ∃ t, chain list i = some t ∧ t ≠ "")
    (hend : chain list j = none) :
    (apiSheets list vg sess q).1 =
      .ok ⟨((list none).files.getD []).map (fun f => mkItem f (vg f.id)),
           (((list none).files.getD []).map (fun f => mkItem f (vg f.id))).length⟩ := by
  rw [apiSheets_reduce list vg sess q tk v htok hval]
  have hb := paginateLoop_breaks list (v.page - 1) j 0 hj1 hjp
    (fun i hi1 hi2 => hpre i (by omega) (by omega))
    (by
      have h0 : (0 : Nat) + j = j := by omega
      rw [h0]
      exact hend)
  have hb' : paginateLoop list (v.page - 1) none = (none, j) := hb
  simp only [apiSheetsAuthed, sheetsFiles, hb']

/-- Witness for the amended claim C1 on the concrete two-page stream with
target page 3. -/
theorem sheets_exhaust_returns_first_page_witness :
    (apiSheets listEx vgNone sessEx qPage3).1 =
      .ok ⟨((listEx none).files.getD []).map (fun f => mkItem f (vgNone f.id)),
           (((listEx none).files.getD []).map (fun f => mkItem f (vgNone f.id))).length⟩ :=
  sheets_exhaust_returns_first_page listEx vgNone sessEx qPage3 "tkn" ⟨3, 5, ""⟩ 2
    rfl rfl (by decide) (by decide)
    (fun i h1 h2 => by
      have hi : i = 1 := by omega
      subst hi
      exact ⟨"tok1", rfl, by decide⟩)
    (by decide)

/-- Claim C4: the OAuth client takes each of its three fields independently
from the session client configuration when that field is set there (to a
truthy value) and from the environment default when it is not, field by
field; a session without any configuration gets all environment defaults. -/
theorem getOAuthClient_per_field_fallback (env : Env) (tok : Option String)
    (cc : ClientConfig) :
    getOAuthClient env ⟨tok, some cc⟩ =
      ⟨specFieldFallback cc.clientId env.GOOGLE_CLIENT_ID,
       specFieldFallback cc.clientSecret env.GOOGLE_CLIENT_SECRET,
       specFieldFallback cc.redirectUri env.GOOGLE_REDIRECT_URI⟩ ∧
    getOAuthClient env ⟨tok, none⟩ =
      ⟨env.GOOGLE_CLIENT_ID, env.GOOGLE_CLIENT_SECRET, env.GOOGLE_REDIRECT_URI⟩ := by
  have hf : ∀ (x y : Option String), jsOrStr x y = specFieldFallback x y := by
    intro x y
    cases x with
    | none => rfl
    | some s =>
      by_cases h : s = "" <;> simp [jsOrStr, specFieldFallback, truthyOptStr, h]
  constructor
  · simp [getOAuthClient, hf]
  · rfl

/-- Claim C5: posting a client configuration whose secret is shorter than 10
characters is rejected with 400 and a validation message, and the session is
left unchanged. -/
theorem postClientConfig_short_secret_rejected (isUri : String → Bool) (env : Env)
    (sess : Session) (body : ClientConfigBody) (s : String)
    (hs : body.clientSecret = some s) (hlen : s.length < 10) :
    (postClientConfig isUri env sess body).1 = sess ∧
    ∃ m, (postClientConfig isUri env sess body).2 = .err 400 m := by
  have hv : ∃ m, validateClientConfig isUri env body = .err m := by
    rcases hbid : body.clientId with _ | i
    · exact ⟨"clientId is required", by simp [validateClientConfig, hbid]⟩
    · by_cases h1 : i = ""
      · exact ⟨"clientId is not allowed to be empty",
          by simp [validateClientConfig, hbid, h1]⟩
      · by_cases h2 : i.length < 10
        · exact ⟨"clientId length must be at least 10 characters long",
            by simp [validateClientConfig, hbid, h1, h2]⟩
        · by_cases h3 : s = ""
          · exact ⟨"clientSecret is not allowed to be empty",
              by simp [validateClientConfig, hbid, h1, h2, hs, h3]⟩
          · exact ⟨"clientSecret length must be at least 10 characters long",
              by simp [validateClientConfig, hbid, h1, h2, hs, h3, hlen]⟩
  obtain ⟨m, hm⟩ := hv
  unfold postClientConfig
  rw [hm]
  exact ⟨rfl, m, rfl⟩

/-- Witness for claim C5 on a concrete five-character secret. -/
theorem postClientConfig_short_secret_rejected_witness :
    (postClientConfig isUriEx envEx sessEx bodyShortSecret).1 = sessEx ∧
    ∃ m, (postClientConfig isUriEx envEx sessEx bodyShortSecret).2 = .err 400 m :=
  postClientConfig_short_secret_rejected isUriEx envEx sessEx bodyShortSecret "short"
    rfl (by decide)

/-- Claim C6: after a successful POST /auth/client-config, the GET returns
configured true with a config object holding exactly the stored redirect
URI; moreover a GET /auth/client-config response on any session only ever
contains the stored redirect URI of that session as a string value, so neither
credential is echoed back. -/
theorem clientConfig_roundtrip_no_secret_echo (isUri : String → Bool) (env : Env)
    (sess sess2 : Session) (body : ClientConfigBody) (sess' : Session) (uri : String)
    (h : postClientConfig isUri env sess body = (sess', .ok uri)) :
    getClientConfig sess' = ⟨true, some ⟨some uri⟩⟩ ∧
    getConfigRespStrings (getClientConfig sess') = [uri] ∧
    (∀ x, x ∈ getConfigRespStrings (getClientConfig sess2) →
      sess2.clientConfig.bind (fun c => c.redirectUri) = some x) := by
  have hany : ∀ (s2 : Session) (x : String),
      x ∈ getConfigRespStrings (getClientConfig s2) →
      s2.clientConfig.bind (fun c => c.redirectUri) = some x := by
    intro s2 x hx
    obtain ⟨tks, cfg⟩ := s2
    cases cfg with
    | none => simp [getClientConfig, getConfigRespStrings] at hx
    | some cc =>
      cases hp : (truthyOptStr cc.clientId && truthyOptStr cc.clientSecret) with
      | false => simp [getClientConfig, getConfigRespStrings, hp] at hx
      | true =>
        rcases hr : cc.redirectUri with _ | u
        · simp [getClientConfig, getConfigRespStrings, hp, hr] at hx
        · simp [getClientConfig, getConfigRespStrings, hp, hr] at hx
          subst hx
          simp [hr]
  unfold postClientConfig at h
  rcases hv : validateClientConfig isUri env body with v | m <;> rw [hv] at h
  · have hlen := validateClientConfig_ok_len isUri env body v hv
    have hid : v.clientId ≠ "" := by
      intro e
      rw [e] at hlen
      simp at hlen
    have hsec : v.clientSecret ≠ "" := by
      intro e
      rw [e] at hlen
      simp at hlen
    have hpair : ({ sess with clientConfig := some ⟨some v.clientId, some v.clientSecret,
        some (if v.redirectUri ≠ "" then v.redirectUri else defaultRedirect env)⟩ },
        (Resp.ok (if v.redirectUri ≠ "" then v.redirectUri else defaultRedirect env) :
          Resp String)) = (sess', .ok uri) := h
    have hsess : sess' = { sess with clientConfig := some ⟨some v.clientId,
        some v.clientSecret,
        some (if v.redirectUri ≠ "" then v.redirectUri else defaultRedirect env)⟩ } :=
      (congrArg Prod.fst hpair).symm
    have huri : (if v.redirectUri ≠ "" then v.redirectUri else defaultRedirect env) = uri :=
      Resp.ok.inj (congrArg Prod.snd hpair)
    subst huri
    subst hsess
    have hget : getClientConfig { sess with clientConfig := some ⟨some v.clientId,
        some v.clientSecret,
        some (if v.redirectUri ≠ "" then v.redirectUri else defaultRedirect env)⟩ } =
        ⟨true, some ⟨some (if v.redirectUri ≠ "" then v.redirectUri else defaultRedirect env)⟩⟩ := by
      simp [getClientConfig, truthyOptStr, hid, hsec]
    refine ⟨hget, ?_, fun x => hany sess2 x⟩
    rw [hget]
    rfl
  · exact Resp.noConfusion (congrArg Prod.snd h)

/-- Witness for claim C6: posting a valid body to a fresh session and
reading the configuration back. -/
theorem clientConfig_roundtrip_no_secret_echo_witness :
    getClientConfig sessStored = ⟨true, some ⟨some "http://localhost:4000/auth/callback"⟩⟩ ∧
    getConfigRespStrings (getClientConfig sessStored) = ["http://localhost:4000/auth/callback"] ∧
    (∀ x, x ∈ getConfigRespStrings (getClientConfig sessStored) →
      sessStored.clientConfig.bind (fun c => c.redirectUri) = some x) :=
  clientConfig_roundtrip_no_secret_echo isUriEx envEx sessAnon sessStored bodyEx sessStored
    "http://localhost:4000/auth/callback" (by decide)

/-- Claim C7: with a token set and validated query parameters, the GET
/api/sheets response holds exactly one item per listed file, a file whose
preview fetch fails gets the empty preview, and a file whose preview fetch
succeeds gets exactly the fetched grid. -/
theorem sheets_preview_isolation (list : DriveList) (vg : ValuesGet)
    (sess : Session) (q : SheetsQuery) (tk : String) (v : ValidSheetsQuery)
    (htok : sess.tokens = some tk) (hval : validateSheetsQuery q = .ok v) :
    ∃ items, (apiSheets list vg sess q).1 = .ok ⟨items, items.length⟩ ∧
      items.length = (sheetsFiles list v).length ∧
      (∀ (i : Nat) (f : DriveFile), (sheetsFiles list v)[i]? = some f →
        (vg f.id = .error () → (items[i]?).map (fun it => it.preview) = some []) ∧
        (∀ g, vg f.id = .ok g →
          (items[i]?).map (fun it => it.preview) = some (g.getD []))) := by
  rw [apiSheets_reduce list vg sess q tk v htok hval]
  refine ⟨(sheetsFiles list v).map (fun f => mkItem f (vg f.id)), rfl, by simp, ?_⟩
  intro i f hf
  have hg : ((sheetsFiles list v).map (fun f => mkItem f (vg f.id)))[i]? =
      some (mkItem f (vg f.id)) := by
    rw [List.getElem?_map, hf]
    rfl
  constructor
  · intro he
    rw [hg]
    simp [mkItem, he]
  · intro g hgok
    rw [hg]
    simp [mkItem, hgok]

/-- Witness for claim C7: three listed files with the middle preview fetch
failing. -/
theorem sheets_preview_isolation_witness :
    ∃ items, (apiSheets listEx3 vgEx3 sessEx qPage1).1 = .ok ⟨items, items.length⟩ ∧
      items.length = (sheetsFiles listEx3 ⟨1, 5, ""⟩).length ∧
      (∀ (i : Nat) (f : DriveFile), (sheetsFiles listEx3 ⟨1, 5, ""⟩)[i]? = some f →
        (vgEx3 f.id = .error () → (items[i]?).map (fun it => it.preview) = some []) ∧
        (∀ g, vgEx3 f.id = .ok g →
          (items[i]?).map (fun it => it.preview) = some (g.getD []))) :=
  sheets_preview_isolation listEx3 vgEx3 sessEx qPage1 "tkn" ⟨1, 5, ""⟩ rfl rfl

/-- Claim C8: with a token set, a spreadsheet whose metadata yields zero tab
property sets is answered with an empty item list, and no values batchGet
call is attempted. -/
theorem tabs_zero_tabs_no_batch (batchGet : List String → Except Unit BatchResp)
    (sess : Session) (tk : String) (meta : TabsMeta)
    (htok : sess.tokens = some tk)
    (hzero : (meta.sheets.getD []).filterMap (fun s => s.properties) = []) :
    apiTabs (.ok meta) batchGet sess = (.ok ⟨[]⟩, ⟨1, 0⟩) := by
  obtain ⟨tks, cc⟩ := sess
  cases tks with
  | none => exact Option.noConfusion htok
  | some t => simp [apiTabs, hzero]

/-- Witness for claim C8 on a spreadsheet with an empty sheets array. -/
theorem tabs_zero_tabs_no_batch_witness :
    apiTabs (.ok metaZero) batchFail sessEx = (.ok ⟨[]⟩, ⟨1, 0⟩) :=
  tabs_zero_tabs_no_batch batchFail sessEx "tkn" metaZero rfl rfl

/-- Claim C9: the range expression built for a tab title doubles every
single quote of the title, wraps the result in single quotes and appends
!A1:E3; a title without single quotes is embedded unchanged. -/
theorem tab_range_escaping (t : String) :
    buildRange t = squoteStr ++ doubleQuotesSpec t ++ squoteStr ++ "!A1:E3" ∧
    (squote ∉ t.data → buildRange t = squoteStr ++ t ++ squoteStr ++ "!A1:E3") := by
  have hdq : ∀ cs : List Char,
      doubleQuoteChars cs = cs.flatMap (fun c => if c = squote then [squote, squote] else [c]) := by
    intro cs
    induction cs with
    | nil => rfl
    | cons c cs ih => by_cases h : c = squote <;> simp [doubleQuoteChars, h, ih]
  constructor
  · unfold buildRange jsReplaceQuotesDouble doubleQuotesSpec
    rw [hdq]
  · intro hs
    have hid : ∀ cs : List Char, squote ∉ cs → doubleQuoteChars cs = cs := by
      intro cs
      induction cs with
      | nil => intro _; rfl
      | cons c cs ih =>
        intro hmem
        have hc : ¬c = squote := fun e => hmem (e ▸ List.mem_cons_self c cs)
        simp [doubleQuoteChars, hc, ih (fun hm => hmem (List.mem_cons_of_mem c hm))]
    unfold buildRange jsReplaceQuotesDouble
    rw [hid t.data hs]

/-- Witness for claim C9 on a quote-free title. -/
theorem tab_range_escaping_witness :
    buildRange "Sheet1" = squoteStr ++ doubleQuotesSpec "Sheet1" ++ squoteStr ++ "!A1:E3" ∧
    buildRange "Sheet1" = squoteStr ++ "Sheet1" ++ squoteStr ++ "!A1:E3" :=
  ⟨(tab_range_escaping "Sheet1").1, (tab_range_escaping "Sheet1").2 (by decide)⟩

/-- Claim C10: every route preserves the stored client-configuration
invariant (credentials of length at least 10 and a non-empty redirect URI),
the POST /auth/client-config handler being the only writer and writing only
validated values. -/
theorem clientConfig_invariant_preserved (isUri : String → Bool) (env : Env)
    (sess : Session) (op : Op) (h : configInv sess.clientConfig) :
    configInv (applyOp isUri env sess op).clientConfig := by
  cases op with
  | login => exact h
  | callback code exch =>
    rcases code with _ | c
    · exact h
    · cases exch with
      | error e => exact h
      | ok t => exact h
  | logout => exact trivial
  | getConfig => exact h
  | postConfig body =>
    show configInv ((postClientConfig isUri env sess body).1).clientConfig
    rcases hv : validateClientConfig isUri env body with v | m
    · have hlen := validateClientConfig_ok_len isUri env body v hv
      have hpost : (postClientConfig isUri env sess body).1 =
          { sess with clientConfig := some ⟨some v.clientId, some v.clientSecret,
            some (if v.redirectUri ≠ "" then v.redirectUri else defaultRedirect env)⟩ } := by
        unfold postClientConfig
        rw [hv]
      rw [hpost]
      refine ⟨⟨v.clientId, rfl, hlen.1⟩, ⟨v.clientSecret, rfl, hlen.2⟩, ?_⟩
      by_cases hr : v.redirectUri = ""
      · rw [if_neg (fun hne => hne hr)]
        exact ⟨defaultRedirect env, rfl, defaultRedirect_ne_empty env⟩
      · rw [if_pos hr]
        exact ⟨v.redirectUri, rfl, hr⟩
    · have hpost : (postClientConfig isUri env sess body).1 = sess := by
        unfold postClientConfig
        rw [hv]
      rw [hpost]
      exact h
  | me => exact h
  | sheetsList q => exact h
  | refresh => exact h
  | tabs => exact h

/-- Witness for claim C10: posting a valid configuration to a fresh session
establishes the invariant. -/
theorem clientConfig_invariant_preserved_witness :
    configInv ((applyOp isUriEx envEx sessAnon (.postConfig bodyEx)).clientConfig) :=
  clientConfig_invariant_preserved isUriEx envEx sessAnon (.postConfig bodyEx) True.intro

end GSheets
